import Mathlib

/-!
Verification of the HP-3000 console protocol layer (`bin/user/hp3000.py`):
the frame extractor `HP3000Station.read`, the message decoder
`HP3000Station.raw_to_pkt`, the timezone decoder `HP3000Station.decode_timezone`
and the outbound command encoders `send_cmd` / `send_sequence`.

Bytes are modelled as `Nat` (USB read yields a Python list of ints in 0..255),
Python float division by 10.0 as exact division in `ℚ`, the untyped result
dict of `raw_to_pkt` as the tagged type `Pkt` (one constructor per value of the
dict key `type`; the empty dict — returned both for a falsy buffer and for an
unrecognized length — is `Pkt.empty`), and the exceptions raised by `read` as
the result type `ReadResult`.
-/

namespace HP3000

/-- The three `weewx.WeeWxIOError` failures raised by `HP3000Station.read`. -/
inductive FrameError where
  | badLength : FrameError
  | badStart : FrameError
  | noTerminator : FrameError
deriving DecidableEq

/-- Outcome of `HP3000Station.read` once a buffer has been obtained from USB:
`noData` models the `return None` on a falsy buffer, `err` a raised
`weewx.WeeWxIOError`, and `indexError` an uncaught Python `IndexError`
escaping the function (the handler `except ValueError, IndexError` is
Python 2 syntax for `except ValueError as IndexError`, so `IndexError`
itself is not caught). -/
inductive ReadResult where
  | noData : ReadResult
  | ok (msg : List Nat) : ReadResult
  | err (e : FrameError) : ReadResult
  | indexError : ReadResult
deriving DecidableEq

/-- `HP3000Station.read` after the USB read returned `buf` (hp3000.py lines
495-516).  `buf.index(0x40)` is the index of the first `0x40` byte, raising
`ValueError` (caught, leading to the no-terminator error) when absent; the
subsequent lookup `buf[i + 1]` raises an uncaught `IndexError` when `i` is the
last index. -/
def read (buf : List Nat) : ReadResult :=
  if buf = [] then ReadResult.noData
  else if buf.length ≠ 64 then ReadResult.err FrameError.badLength
  else if buf.getD 0 0 ≠ 0x7b then ReadResult.err FrameError.badStart
  else
    match buf.findIdx? (fun b => b == 0x40) with
    | none => ReadResult.err FrameError.noTerminator
    | some i =>
        if i + 1 < buf.length then
          if buf.getD (i + 1) 0 = 0x7d then ReadResult.ok (buf.take (i + 2))
          else ReadResult.err FrameError.noTerminator
        else ReadResult.indexError

/-- Spec-side scan (from the spec's words, for comparison with `read`): the
first index `i` with `raw[i] == 0x40` and `raw[i+1] == 0x7d`, both in bounds. -/
def firstTerminatorIdx (buf : List Nat) : Option Nat :=
  (List.range buf.length).find?
    (fun i => (buf.getD i 0 == 0x40) && (i + 1 < buf.length) && (buf.getD (i + 1) 0 == 0x7d))

/-- `HP3000Station.decode_timezone` (hp3000.py lines 553-557). -/
def decode_timezone (x : Nat) : Int :=
  if x &&& 0xf0 = 0xf0 then (x : Int) - 0x100 else (x : Int)

/-- `HP3000Station.GRAPH_TYPE.get`. -/
def GRAPH_TYPE : Nat → Option String
  | 0 => some "temperature"
  | 1 => some "humidity"
  | 2 => some "dewpoint"
  | 3 => some "heatindex"
  | _ => none

/-- `HP3000Station.TIME_FORMAT.get`. -/
def TIME_FORMAT : Nat → Option String
  | 0 => some "h:mm:ss"
  | 1 => some "AM h:mm:ss"
  | 2 => some "h:mm:ss AM"
  | _ => none

/-- `HP3000Station.DATE_FORMAT.get`. -/
def DATE_FORMAT : Nat → Option String
  | 0 => some "dd-mm-yyyy"
  | 1 => some "mm-dd-yyyy"
  | 2 => some "yyyy-mm-dd"
  | _ => none

/-- `HP3000Station.DST.get`. -/
def DST : Nat → Option String
  | 0 => some "off"
  | 1 => some "on"
  | _ => none

/-- `HP3000Station.UNITS.get`. -/
def UNITS : Nat → Option String
  | 0 => some "degree_C"
  | 1 => some "degree_F"
  | _ => none

/-- The dict built by `HP3000Station.raw_to_pkt`, as a tagged variant: one
constructor per value of the `type` key; per-channel fields are the list of
the loop's values for `ch = 0..7` (channel `ch+1`).  `empty` is the dict with
no keys (falsy buffer, or unrecognized length). -/
inductive Pkt where
  | empty : Pkt
  | interval (minutes : Nat) : Pkt
  | configuration (graph_type : Option String) (graph_hours : Nat)
      (time_format : Option String) (date_format : Option String)
      (dst : Option String) (timezone : Int) (units : Option String)
      (area1 area2 area3 area4 area5 : Nat) : Pkt
  | alarm_humidity (hilo : List (Nat × Nat)) : Pkt
  | alarm_temperature (hilo : List (ℚ × ℚ)) : Pkt
  | sensor_calibration (cal : List (ℚ × Nat)) : Pkt
  | sensor_values (vals : List (Option ℚ × Option Nat)) : Pkt
deriving DecidableEq

/-- Loop body of the humidity-alarm branch: `(buf[idx], buf[idx+1])` with
`idx = 1 + ch * 2`. -/
def humAlarmAt (buf : List Nat) (ch : Nat) : Nat × Nat :=
  (buf.getD (1 + ch * 2) 0, buf.getD (2 + ch * 2) 0)

/-- Loop body of the temperature-alarm branch: big-endian 16-bit hi/lo values
divided by 10.0, with `idx = 1 + ch * 4`. -/
def tempAlarmAt (buf : List Nat) (ch : Nat) : ℚ × ℚ :=
  (((buf.getD (1 + ch * 4) 0) * 256 + buf.getD (2 + ch * 4) 0 : ℚ) / 10,
   ((buf.getD (3 + ch * 4) 0) * 256 + buf.getD (4 + ch * 4) 0 : ℚ) / 10)

/-- Loop body of the sensor-calibration branch, with `idx = 1 + ch * 3`. -/
def sensorCalAt (buf : List Nat) (ch : Nat) : ℚ × Nat :=
  (((buf.getD (1 + ch * 3) 0) * 256 + buf.getD (2 + ch * 3) 0 : ℚ) / 10,
   buf.getD (3 + ch * 3) 0)

/-- Loop body of the sensor-values branch, with `idx = 1 + ch * 3`: the
temperature key is set only when `buf[idx] != 0x7f and buf[idx+1] != 0xff`,
the humidity key only when `buf[idx+2] != 0xff`. -/
def sensorValAt (buf : List Nat) (ch : Nat) : Option ℚ × Option Nat :=
  (if buf.getD (1 + ch * 3) 0 ≠ 0x7f ∧ buf.getD (2 + ch * 3) 0 ≠ 0xff
     then some (((buf.getD (1 + ch * 3) 0) * 256 + buf.getD (2 + ch * 3) 0 : ℚ) / 10)
     else none,
   if buf.getD (3 + ch * 3) 0 ≠ 0xff then some (buf.getD (3 + ch * 3) 0) else none)

/-- `HP3000Station.raw_to_pkt` (hp3000.py lines 559-614).  The length-27
branch compares `buf[1:-2]` with `[0] * 24`; the final `else` only logs and
leaves the dict empty. -/
def raw_to_pkt (buf : List Nat) : Pkt :=
  if buf = [] then Pkt.empty
  else if buf.length = 4 then Pkt.interval (buf.getD 1 0)
  else if buf.length = 30 then
    Pkt.configuration (GRAPH_TYPE (buf.getD 1 0)) (buf.getD 2 0)
      (TIME_FORMAT (buf.getD 3 0)) (DATE_FORMAT (buf.getD 4 0))
      (DST (buf.getD 5 0)) (decode_timezone (buf.getD 6 0))
      (UNITS (buf.getD 7 0))
      (buf.getD 11 0) (buf.getD 15 0) (buf.getD 19 0) (buf.getD 23 0) (buf.getD 27 0)
  else if buf.length = 19 then
    Pkt.alarm_humidity ((List.range 8).map (humAlarmAt buf))
  else if buf.length = 35 then
    Pkt.alarm_temperature ((List.range 8).map (tempAlarmAt buf))
  else if buf.length = 27 then
    if (buf.take (buf.length - 2)).drop 1 = List.replicate 24 0 then
      Pkt.sensor_calibration ((List.range 8).map (sensorCalAt buf))
    else
      Pkt.sensor_values ((List.range 8).map (sensorValAt buf))
  else Pkt.empty

/-- The `type` key of the decoded dict (`none` when the dict is empty). -/
def pktKind : Pkt → Option String
  | Pkt.empty => none
  | Pkt.interval _ => some "interval"
  | Pkt.configuration _ _ _ _ _ _ _ _ _ _ _ _ => some "configuration"
  | Pkt.alarm_humidity _ => some "alarm_humidity"
  | Pkt.alarm_temperature _ => some "alarm_temperature"
  | Pkt.sensor_calibration _ => some "sensor_calibration"
  | Pkt.sensor_values _ => some "sensor_values"

/-- The `timezone` key of the decoded dict. -/
def pktTimezone : Pkt → Option Int
  | Pkt.configuration _ _ _ _ _ tz _ _ _ _ _ _ => some tz
  | _ => none

/-- The `units` key of the decoded dict (the key's value is itself the result
of `UNITS.get`, an optional string). -/
def pktUnits : Pkt → Option String
  | Pkt.configuration _ _ _ _ _ _ u _ _ _ _ _ => u
  | _ => none

/-- The 24 payload bytes of a length-27 message, positions 1..24, are all 0. -/
def payloadAllZero (buf : List Nat) : Prop :=
  ∀ i < 24, buf.getD (i + 1) 0 = 0

instance (buf : List Nat) : Decidable (payloadAllZero buf) :=
  Nat.decidableBallLT 24 _

/-- `HP3000Station.send_cmd` (hp3000.py lines 518-519): the byte list passed
to `write`. -/
def send_cmd (cmd : Nat) : List Nat :=
  [0x7b, cmd, 0x40, 0x7d]

/-- `HP3000Station.send_sequence` (hp3000.py lines 521-528): the buffers
written, in order. -/
def send_sequence : List (List Nat) :=
  [send_cmd 0x06, send_cmd 0x08, send_cmd 0x09, send_cmd 0x05,
   send_cmd 0x03, send_cmd 0x04, send_cmd 0x41]

/-- The example current-data message from the protocol notes. -/
def sensorValuesExample : List Nat :=
  [0x7b, 0x00, 0xeb, 0x25,
   0x7f, 0xff, 0xff, 0x7f, 0xff, 0xff, 0x7f, 0xff, 0xff, 0x7f, 0xff, 0xff,
   0x7f, 0xff, 0xff, 0x7f, 0xff, 0xff, 0x7f, 0xff, 0xff, 0x40, 0x7d]

/-- The example configuration message from the protocol notes. -/
def configurationExample : List Nat :=
  [0x7b, 0x00, 0x48, 0x01, 0x00, 0x00, 0xfb, 0x01, 0x00, 0x00, 0x00, 0x07] ++
    List.replicate 16 0 ++ [0x40, 0x7d]

/-- C9: decoding the literal 27-byte buffer
`7b 00 eb 25 7f ff ff ... 7f ff ff 40 7d` yields sensor values with channel 1
temperature 23.5 °C and humidity 37 %, and channels 2..8 absent. -/
theorem raw_to_pkt_sensorValuesExample :
    raw_to_pkt sensorValuesExample =
      Pkt.sensor_values ((some (47 / 2 : ℚ), some 37) :: List.replicate 7 (none, none)) := by
  have h27 : raw_to_pkt sensorValuesExample =
      Pkt.sensor_values ((List.range 8).map (sensorValAt sensorValuesExample)) := by
    rw [raw_to_pkt]
    norm_num [sensorValuesExample]
    rw [if_neg (by decide), if_neg (by decide)]
  rw [h27]
  have hrange : List.range 8 = [0, 1, 2, 3, 4, 5, 6, 7] := rfl
  rw [hrange]
  simp only [List.map_cons, List.map_nil]
  norm_num [sensorValAt, sensorValuesExample, List.replicate]

/-- C10: each polling ping with opcode `op` is written as the 4-byte frame
`7b op 40 7d`, and `send_sequence` writes the seven ping opcodes
`06 08 09 05 03 04 41` in exactly that order, each so framed. -/
theorem send_sequence_frames :
    (∀ op : Nat, send_cmd op = [0x7b, op, 0x40, 0x7d]) ∧
      send_sequence =
        [[0x7b, 0x06, 0x40, 0x7d], [0x7b, 0x08, 0x40, 0x7d], [0x7b, 0x09, 0x40, 0x7d],
         [0x7b, 0x05, 0x40, 0x7d], [0x7b, 0x03, 0x40, 0x7d], [0x7b, 0x04, 0x40, 0x7d],
         [0x7b, 0x41, 0x40, 0x7d]] := by
  exact ⟨fun op => rfl, rfl⟩

/-- A 64-byte packet whose first `0x40` (index 1) is not followed by `0x7d`,
while the first `0x40 0x7d` terminator pair sits at indices 2 and 3. -/
def strayByteBuf : List Nat :=
  [0x7b, 0x40, 0x40, 0x7d] ++ List.replicate 60 0

/-- C1 (counterexample): `strayByteBuf` is a 64-byte packet starting `0x7b`
whose first `0x40 0x7d` pair is at `p = 2`, yet `read` raises the
no-terminator error instead of returning `raw[0..4]`: `buf.index(0x40)` only
examines the first `0x40` byte, not the first terminator pair. -/
theorem read_stray0x40_counterexample :
    strayByteBuf.length = 64 ∧ strayByteBuf.getD 0 0 = 0x7b ∧
      firstTerminatorIdx strayByteBuf = some 2 ∧
      read strayByteBuf = ReadResult.err FrameError.noTerminator := by
  decide

/-- C1 (amended): for a 64-byte packet starting `0x7b`, when the first `0x40`
byte sits at index `p` with `p + 1 < 64` and is immediately followed by
`0x7d`, `read` returns exactly `raw[0..p+2]` (terminator included),
discarding every byte after position `p + 2`. -/
theorem read_returns_slice_at_first0x40 (buf : List Nat) (p : Nat)
    (hlen : buf.length = 64) (hstart : buf.getD 0 0 = 0x7b)
    (hfind : buf.findIdx? (fun b => b == 0x40) = some p)
    (hp : p + 1 < 64) (hterm : buf.getD (p + 1) 0 = 0x7d) :
    read buf = ReadResult.ok (buf.take (p + 2)) := by
  have hne : buf ≠ [] := by
    intro hnil
    rw [hnil] at hlen
    exact absurd hlen (by decide)
  rw [read, if_neg hne, if_neg (fun h => h hlen), if_neg (fun h => h hstart), hfind]
  have hb : p + 1 < buf.length := by omega
  rw [List.getD_eq_getElem?_getD, List.getElem?_eq_getElem hb] at hterm
  simp [hlen, hp]
  simpa using hterm

/-- A 64-byte packet echoing a ping frame followed by residue zeros. -/
def pingEchoBuf : List Nat :=
  [0x7b, 0x01, 0x40, 0x7d] ++ List.replicate 60 0

/-- Witness for the amended C1 at a concrete packet. -/
theorem read_returns_slice_at_first0x40_witness :
    read pingEchoBuf = ReadResult.ok [0x7b, 0x01, 0x40, 0x7d] := by
  have h := read_returns_slice_at_first0x40 pingEchoBuf 2
    (by decide) (by decide) (by decide) (by decide) (by decide)
  rw [h]
  decide

/-- A 64-byte packet starting `0x7b` whose only `0x40` byte is the final byte;
it contains no `0x40 0x7d` pair at all. -/
def lateOnly0x40Buf : List Nat :=
  [0x7b] ++ List.replicate 62 0 ++ [0x40]

/-- C5 (code bug): on a 64-byte packet starting `0x7b` that contains no
`0x40 0x7d` pair but whose last byte is `0x40`, `read` does not raise the
typed no-terminator `WeeWxIOError`: the lookup `buf[i + 1]` raises an
`IndexError` that the handler `except ValueError, IndexError` (Python 2 for
`except ValueError as IndexError`) does not catch. -/
theorem read_noPair_uncaught_indexError :
    lateOnly0x40Buf.length = 64 ∧ lateOnly0x40Buf.getD 0 0 = 0x7b ∧
      firstTerminatorIdx lateOnly0x40Buf = none ∧
      read lateOnly0x40Buf = ReadResult.indexError ∧
      read lateOnly0x40Buf ≠ ReadResult.err FrameError.noTerminator := by
  decide

/-- A 64-byte packet starting `0x7b` whose first (and only) `0x40` sits at the
last index 63. -/
def terminal0x40Buf : List Nat :=
  [0x7b] ++ List.replicate 62 1 ++ [0x40]

/-- C6 (code bug): with the first and only `0x40` at index 63, the
extractor's inspection of the byte after it escapes as an unhandled
out-of-bounds `IndexError` instead of surfacing through the typed error
path. -/
theorem read_terminal0x40_uncaught_indexError :
    terminal0x40Buf.length = 64 ∧ terminal0x40Buf.getD 0 0 = 0x7b ∧
      terminal0x40Buf.findIdx? (fun b => b == 0x40) = some 63 ∧
      read terminal0x40Buf = ReadResult.indexError := by
  decide

theorem length_ne_nil {buf : List Nat} {n : Nat} (h : buf.length = n) (hn : n ≠ 0) :
    buf ≠ [] := by
  intro hnil
  rw [hnil] at h
  exact hn h.symm

/-- The comparison `buf[1:-2] == [0] * 24` of the length-27 branch holds iff
the 24 payload bytes at positions 1..24 are all zero. -/
theorem payload_slice_eq_iff (buf : List Nat) (h : buf.length = 27) :
    ((buf.take (buf.length - 2)).drop 1 = List.replicate 24 0) ↔ payloadAllZero buf := by
  constructor
  · intro hs i hi
    have h1 : ((buf.take (buf.length - 2)).drop 1)[i]? = some 0 := by
      rw [hs, List.getElem?_replicate, if_pos hi]
    rw [List.getElem?_drop, List.getElem?_take, if_pos (by omega)] at h1
    rw [List.getD_eq_getElem?_getD, Nat.add_comm i 1, h1]
    rfl
  · intro hz
    apply List.ext_getElem?
    intro n
    rw [List.getElem?_drop, List.getElem?_take, List.getElem?_replicate]
    by_cases hn : n < 24
    · rw [if_pos (by omega), if_pos hn]
      have hb : 1 + n < buf.length := by omega
      have := hz n hn
      rw [List.getD_eq_getElem?_getD, Nat.add_comm n 1, List.getElem?_eq_getElem hb] at this
      rw [List.getElem?_eq_getElem hb]
      simpa using this
    · rw [if_neg (by omega), if_neg hn]

theorem map_range8_eq_replicate {α : Type} (f : Nat → α) (a : α)
    (hf : ∀ ch < 8, f ch = a) :
    (List.range 8).map f = List.replicate 8 a := by
  apply List.ext_getElem?
  intro n
  rw [List.getElem?_map, List.getElem?_replicate]
  by_cases hn : n < 8
  · rw [List.getElem?_range hn, if_pos hn]
    simp [hf n hn]
  · rw [if_neg hn]
    have hnone : (List.range 8)[n]? = none := by
      simp [List.getElem?_eq_none_iff]
      omega
    rw [hnone]
    rfl

theorem raw_to_pkt_len4 (buf : List Nat) (h : buf.length = 4) :
    raw_to_pkt buf = Pkt.interval (buf.getD 1 0) := by
  rw [raw_to_pkt, if_neg (length_ne_nil h (by decide)), if_pos h]

theorem raw_to_pkt_len30 (buf : List Nat) (h : buf.length = 30) :
    raw_to_pkt buf = Pkt.configuration (GRAPH_TYPE (buf.getD 1 0)) (buf.getD 2 0)
      (TIME_FORMAT (buf.getD 3 0)) (DATE_FORMAT (buf.getD 4 0)) (DST (buf.getD 5 0))
      (decode_timezone (buf.getD 6 0)) (UNITS (buf.getD 7 0))
      (buf.getD 11 0) (buf.getD 15 0) (buf.getD 19 0) (buf.getD 23 0) (buf.getD 27 0) := by
  rw [raw_to_pkt, if_neg (length_ne_nil h (by decide)), if_neg (by omega), if_pos h]

theorem raw_to_pkt_len19 (buf : List Nat) (h : buf.length = 19) :
    raw_to_pkt buf = Pkt.alarm_humidity ((List.range 8).map (humAlarmAt buf)) := by
  rw [raw_to_pkt, if_neg (length_ne_nil h (by decide)), if_neg (by omega), if_neg (by omega),
    if_pos h]

theorem raw_to_pkt_len35 (buf : List Nat) (h : buf.length = 35) :
    raw_to_pkt buf = Pkt.alarm_temperature ((List.range 8).map (tempAlarmAt buf)) := by
  rw [raw_to_pkt, if_neg (length_ne_nil h (by decide)), if_neg (by omega), if_neg (by omega),
    if_neg (by omega), if_pos h]

theorem raw_to_pkt_len27_zero (buf : List Nat) (h : buf.length = 27)
    (hz : payloadAllZero buf) :
    raw_to_pkt buf = Pkt.sensor_calibration (List.replicate 8 ((0 : ℚ), 0)) := by
  rw [raw_to_pkt, if_neg (length_ne_nil h (by decide)), if_neg (by omega), if_neg (by omega),
    if_neg (by omega), if_neg (by omega), if_pos h,
    if_pos ((payload_slice_eq_iff buf h).mpr hz)]
  congr 1
  apply map_range8_eq_replicate
  intro ch hch
  have e1 : buf.getD (1 + ch * 3) 0 = 0 := by
    have := hz (ch * 3) (by omega)
    rwa [Nat.add_comm (ch * 3) 1] at this
  have e2 : buf.getD (2 + ch * 3) 0 = 0 := by
    have := hz (ch * 3 + 1) (by omega)
    rwa [show ch * 3 + 1 + 1 = 2 + ch * 3 by omega] at this
  have e3 : buf.getD (3 + ch * 3) 0 = 0 := by
    have := hz (ch * 3 + 2) (by omega)
    rwa [show ch * 3 + 2 + 1 = 3 + ch * 3 by omega] at this
  rw [sensorCalAt, e1, e2, e3]
  norm_num

theorem raw_to_pkt_len27_not_zero (buf : List Nat) (h : buf.length = 27)
    (hz : ¬ payloadAllZero buf) :
    raw_to_pkt buf = Pkt.sensor_values ((List.range 8).map (sensorValAt buf)) := by
  rw [raw_to_pkt, if_neg (length_ne_nil h (by decide)), if_neg (by omega), if_neg (by omega),
    if_neg (by omega), if_neg (by omega), if_pos h,
    if_neg (fun hs => hz ((payload_slice_eq_iff buf h).mp hs))]

theorem raw_to_pkt_unrecognized (buf : List Nat) (h4 : buf.length ≠ 4)
    (h19 : buf.length ≠ 19) (h27 : buf.length ≠ 27) (h30 : buf.length ≠ 30)
    (h35 : buf.length ≠ 35) :
    raw_to_pkt buf = Pkt.empty := by
  rw [raw_to_pkt]
  by_cases hb : buf = []
  · rw [if_pos hb]
  · rw [if_neg hb, if_neg h4, if_neg h30, if_neg h19, if_neg h35, if_neg h27]

/-- A 27-byte message whose channel-1 temperature bytes are `msb = 0x00`,
`lsb = 0xff` (payload not all zero), channels 2..8 carrying the unpopulated
sentinel `7f ff ff`. -/
def lsbSentinelBuf : List Nat :=
  [0x7b, 0x00, 0xff, 0x25,
   0x7f, 0xff, 0xff, 0x7f, 0xff, 0xff, 0x7f, 0xff, 0xff, 0x7f, 0xff, 0xff,
   0x7f, 0xff, 0xff, 0x7f, 0xff, 0xff, 0x7f, 0xff, 0xff, 0x40, 0x7d]

/-- C2 (counterexample): channel 1 of `lsbSentinelBuf` has temperature MSB
`0x00 ≠ 0x7f`, yet the decoded sensor-values record leaves its temperature
absent, because the code also requires the LSB byte to differ from `0xff`:
absence is not decided by the MSB sentinel alone. -/
theorem sensor_temp_lsb_checked_counterexample :
    lsbSentinelBuf.length = 27 ∧ lsbSentinelBuf.getD 1 0 ≠ 0x7f ∧
      raw_to_pkt lsbSentinelBuf =
        Pkt.sensor_values ((none, some 37) :: List.replicate 7 (none, none)) := by
  decide

/-- C2 (amended): in a 27-byte message decoded as sensor values (payload not
all zero), the temperature of channel `c + 1` is present iff the channel's
MSB byte differs from `0x7f` and its LSB byte differs from `0xff`, and then
equals `(msb * 256 + lsb) / 10` degrees Celsius. -/
theorem sensor_temp_presence (buf : List Nat) (c : Nat) (h : buf.length = 27)
    (hnz : ¬ payloadAllZero buf) (hc : c < 8) :
    ∃ vals, raw_to_pkt buf = Pkt.sensor_values vals ∧
      vals[c]?.map Prod.fst =
        some (if buf.getD (1 + c * 3) 0 ≠ 0x7f ∧ buf.getD (2 + c * 3) 0 ≠ 0xff
          then some (((buf.getD (1 + c * 3) 0) * 256 + buf.getD (2 + c * 3) 0 : ℚ) / 10)
          else none) := by
  refine ⟨(List.range 8).map (sensorValAt buf), raw_to_pkt_len27_not_zero buf h hnz, ?_⟩
  rw [List.getElem?_map, List.getElem?_range hc]
  rfl

/-- Witness for the amended C2 at the example current-data message,
channel 1. -/
theorem sensor_temp_presence_witness :
    ∃ vals, raw_to_pkt sensorValuesExample = Pkt.sensor_values vals ∧
      vals[0]?.map Prod.fst = some (some ((47 : ℚ) / 2)) := by
  obtain ⟨vals, hv, hf⟩ :=
    sensor_temp_presence sensorValuesExample 0 (by decide) (by decide) (by decide)
  refine ⟨vals, hv, ?_⟩
  rw [hf, if_pos (by decide)]
  norm_num [sensorValuesExample]

/-- C3: a 27-byte message decodes to sensor calibration — with all
temperature offsets `(msb * 256 + lsb) / 10 = 0` and all humidity offsets 0 —
exactly when its 24 payload bytes at positions 1..24 are all zero, and to
sensor values otherwise. -/
theorem raw_to_pkt_len27_classification (buf : List Nat) (h : buf.length = 27) :
    (payloadAllZero buf →
        raw_to_pkt buf = Pkt.sensor_calibration (List.replicate 8 ((0 : ℚ), 0))) ∧
      (¬ payloadAllZero buf →
        raw_to_pkt buf = Pkt.sensor_values ((List.range 8).map (sensorValAt buf))) ∧
      (pktKind (raw_to_pkt buf) = some "sensor_calibration" ↔ payloadAllZero buf) := by
  refine ⟨raw_to_pkt_len27_zero buf h, raw_to_pkt_len27_not_zero buf h, ?_⟩
  by_cases hz : payloadAllZero buf
  · rw [raw_to_pkt_len27_zero buf h hz]
    simpa [pktKind] using hz
  · rw [raw_to_pkt_len27_not_zero buf h hz]
    simpa [pktKind] using hz

/-- The 27-byte all-zero-payload message. -/
def zeroCalBuf : List Nat :=
  [0x7b] ++ List.replicate 24 0 ++ [0x40, 0x7d]

/-- Witness for C3 at the all-zero-payload message. -/
theorem raw_to_pkt_len27_classification_witness :
    raw_to_pkt zeroCalBuf = Pkt.sensor_calibration (List.replicate 8 ((0 : ℚ), 0)) := by
  exact (raw_to_pkt_len27_classification zeroCalBuf (by decide)).1 (by decide)

/-- C4 (counterexample): two distinct unrecognized-length messages decode to
the same record — the empty dict — so the decoded record of an unrecognized
shape cannot carry the raw message bytes (they are only written to the debug
log). -/
theorem raw_to_pkt_unknown_carries_nothing :
    raw_to_pkt [1, 2, 3, 4, 5] = raw_to_pkt [9, 9, 9, 9, 9] ∧
      ([1, 2, 3, 4, 5] : List Nat) ≠ [9, 9, 9, 9, 9] ∧
      raw_to_pkt [1, 2, 3, 4, 5] = Pkt.empty := by
  exact ⟨rfl, by decide, rfl⟩

/-- C4 (amended): decode never fails — every message whose length is not one
of the recognized shapes (4, 19, 27, 30, 35) decodes to the empty record,
which carries no data at all (the raw bytes are only logged), rather than
raising an error. -/
theorem raw_to_pkt_total_on_unknown (buf : List Nat) (h4 : buf.length ≠ 4)
    (h19 : buf.length ≠ 19) (h27 : buf.length ≠ 27) (h30 : buf.length ≠ 30)
    (h35 : buf.length ≠ 35) :
    raw_to_pkt buf = Pkt.empty := by
  exact raw_to_pkt_unrecognized buf h4 h19 h27 h30 h35

/-- Witness for the amended C4 at a length-3 message. -/
theorem raw_to_pkt_total_on_unknown_witness :
    raw_to_pkt [0x7b, 0x40, 0x7d] = Pkt.empty := by
  exact raw_to_pkt_total_on_unknown [0x7b, 0x40, 0x7d]
    (by decide) (by decide) (by decide) (by decide) (by decide)

/-- C7: decode classifies every message by its exact byte length — 4 bytes
yield the interval record with minutes = byte 1; 19 bytes the humidity-alarm
record with per-channel hi/lo at bytes `1 + 2*(ch-1)` and `2 + 2*(ch-1)`;
30 bytes a configuration record; 35 bytes the temperature-alarm record with
per-channel hi/lo 16-bit big-endian values divided by 10; 27 bytes sensor
values or sensor calibration; every other length the empty (unknown) record —
and for every length other than 27 the classification does not depend on the
message content. -/
theorem raw_to_pkt_classification (buf : List Nat) :
    (buf.length = 4 → raw_to_pkt buf = Pkt.interval (buf.getD 1 0)) ∧
      (buf.length = 19 →
        ∃ hilo, raw_to_pkt buf = Pkt.alarm_humidity hilo ∧
          ∀ c < 8, hilo[c]? = some (buf.getD (1 + c * 2) 0, buf.getD (2 + c * 2) 0)) ∧
      (buf.length = 30 → pktKind (raw_to_pkt buf) = some "configuration") ∧
      (buf.length = 35 →
        ∃ hilo, raw_to_pkt buf = Pkt.alarm_temperature hilo ∧
          ∀ c < 8, hilo[c]? =
            some (((buf.getD (1 + c * 4) 0) * 256 + buf.getD (2 + c * 4) 0 : ℚ) / 10,
              ((buf.getD (3 + c * 4) 0) * 256 + buf.getD (4 + c * 4) 0 : ℚ) / 10)) ∧
      (buf.length = 27 →
        pktKind (raw_to_pkt buf) = some "sensor_values" ∨
          pktKind (raw_to_pkt buf) = some "sensor_calibration") ∧
      (buf.length ≠ 4 → buf.length ≠ 19 → buf.length ≠ 27 → buf.length ≠ 30 →
        buf.length ≠ 35 → raw_to_pkt buf = Pkt.empty) ∧
      (∀ buf2 : List Nat, buf2.length = buf.length → buf.length ≠ 27 →
        pktKind (raw_to_pkt buf) = pktKind (raw_to_pkt buf2)) := by
  refine ⟨raw_to_pkt_len4 buf, ?_, ?_, ?_, ?_, raw_to_pkt_unrecognized buf, ?_⟩
  · intro h
    refine ⟨(List.range 8).map (humAlarmAt buf), raw_to_pkt_len19 buf h, ?_⟩
    intro c hc
    rw [List.getElem?_map, List.getElem?_range hc]
    rfl
  · intro h
    rw [raw_to_pkt_len30 buf h]
    rfl
  · intro h
    refine ⟨(List.range 8).map (tempAlarmAt buf), raw_to_pkt_len35 buf h, ?_⟩
    intro c hc
    rw [List.getElem?_map, List.getElem?_range hc]
    rfl
  · intro h
    by_cases hz : payloadAllZero buf
    · right
      rw [raw_to_pkt_len27_zero buf h hz]
      rfl
    · left
      rw [raw_to_pkt_len27_not_zero buf h hz]
      rfl
  · intro buf2 hlen2 h27
    by_cases h4 : buf.length = 4
    · rw [raw_to_pkt_len4 buf h4, raw_to_pkt_len4 buf2 (hlen2.trans h4)]
      rfl
    by_cases h19 : buf.length = 19
    · rw [raw_to_pkt_len19 buf h19, raw_to_pkt_len19 buf2 (hlen2.trans h19)]
      rfl
    by_cases h30 : buf.length = 30
    · rw [raw_to_pkt_len30 buf h30, raw_to_pkt_len30 buf2 (hlen2.trans h30)]
      rfl
    by_cases h35 : buf.length = 35
    · rw [raw_to_pkt_len35 buf h35, raw_to_pkt_len35 buf2 (hlen2.trans h35)]
      rfl
    · rw [raw_to_pkt_unrecognized buf h4 h19 h27 h30 h35,
        raw_to_pkt_unrecognized buf2 (hlen2 ▸ h4) (hlen2 ▸ h19) (hlen2 ▸ h27)
          (hlen2 ▸ h30) (hlen2 ▸ h35)]

/-- Witness for C7 at a concrete 4-byte interval message. -/
theorem raw_to_pkt_classification_witness :
    raw_to_pkt [0x7b, 0x05, 0x40, 0x7d] = Pkt.interval 5 := by
  exact (raw_to_pkt_classification [0x7b, 0x05, 0x40, 0x7d]).1 rfl

/-- C8: the timezone byte decodes to `byte - 0x100` when its high nibble is
`0xf` and to `byte` otherwise; a 30-byte configuration message carries
`decode_timezone` of byte 6; and the literal configuration buffer beginning
`7b 00 48 01 00 00 fb 01` decodes with timezone `-5` and units `degree_F`. -/
theorem decode_timezone_spec :
    (∀ x : Nat,
        (x &&& 0xf0 = 0xf0 → decode_timezone x = (x : Int) - 0x100) ∧
          (x &&& 0xf0 ≠ 0xf0 → decode_timezone x = (x : Int))) ∧
      (∀ buf : List Nat, buf.length = 30 →
        pktTimezone (raw_to_pkt buf) = some (decode_timezone (buf.getD 6 0))) ∧
      pktTimezone (raw_to_pkt configurationExample) = some (-5) ∧
      pktUnits (raw_to_pkt configurationExample) = some "degree_F" := by
  refine ⟨?_, ?_, by decide, by decide⟩
  · intro x
    constructor
    · intro hx
      rw [decode_timezone, if_pos hx]
    · intro hx
      rw [decode_timezone, if_neg hx]
  · intro buf h
    rw [raw_to_pkt_len30 buf h]
    rfl

/-- Witness for C8: the example timezone byte `0xfb` and the literal
configuration buffer. -/
theorem decode_timezone_spec_witness :
    decode_timezone 0xfb = -5 ∧
      pktTimezone (raw_to_pkt configurationExample) = some (-5) := by
  constructor
  · rw [(decode_timezone_spec.1 0xfb).1 (by decide)]
    decide
  · exact decode_timezone_spec.2.2.1

end HP3000
